import Mathlib

/-!
Shallow embedding of `src/index.ts` of the firestore-get-doc-wrapper
repository.

The source exports one entry point, `getDocWrapper(db, path, options?)`,
built from two pieces:

* `requestDoc(db, path, retryOptions?)` — the retrying fetcher around the
  remote `getDoc` call;
* the cache decision engine inside `getDocWrapper`, which reads a cache
  entry for `path` from an IndexedDB-backed key-value store (`get`),
  decides whether to serve it, and otherwise deletes (`del`), refetches
  and writes (`set`) a new entry.

Modelling choices, each mirroring a construct of the source:

* Time is an `Int` (milliseconds).  A single instant `now` stands for the
  `Date.now()` calls of one invocation.
* A JS cache-time value (`cacheTime.time`, `persistentCacheTime`) may be a
  finite number of milliseconds or `Number.POSITIVE_INFINITY`; `TTL`
  captures both.  Absent fields are `Option`s, mirroring `?.` chains.
* The JS comparison `(Date.now() - fetchedAt) < t` with `t` possibly
  `undefined` or `Infinity` is `ltTTL` (`x < undefined` is `false`,
  `x < Infinity` is `true` for finite `x`).
* JS truthiness of the stored `persistentCacheTime` in the guard
  `if (persistentCacheTime && ...)` is `ttlTruthy` (`undefined` and `0`
  are falsy, every other number — including `Infinity` — is truthy).
* The remote collaborator (`getDoc`) is a function `remote : Nat →
  Except RemoteErr (Option D)`: attempt number `i` (the value of the
  `retries` counter) yields either a snapshot whose `.data()` is
  `Option D` (`none` = the document does not exist) or an error carrying
  an optional `code` field.
* The persistent store collaborator is `StoreBehavior`: the outcomes of
  the (at most one) `get`, `del` and `set` calls this invocation makes.
  The source invokes `set` without `await` and without `.catch`, so a
  `set` failure can never reject the wrapper promise; accordingly
  `setResult` is never consulted by the embedding, and the entry passed
  to `set` is recorded in the `written` field of the outcome.
* `requestDoc`'s recursion is bounded by the `retries < maxRetries - 1`
  guard of the source; the Lean function carries an explicit fuel, which
  `requestDoc` instantiates at `maxRetries`, strictly more than the
  recursion ever consumes, so the fuel-exhaustion arm is unreachable
  from `requestDoc`.
-/

deriving instance DecidableEq for Except

/-- A JS cache-time value: a finite number of milliseconds or
`Number.POSITIVE_INFINITY`. -/
inductive TTL where
  | fin (ms : Int)
  | inf
  deriving DecidableEq

/-- The error thrown by the remote fetch: `err?.code` may be absent. -/
structure RemoteErr where
  code : Option String
  deriving DecidableEq

/-- A failure of `requestDoc`: either the underlying remote error is
rethrown (`throw err`), or the distinct wrapper
`new Error("Firestore threw an error but its code was not in the list of error codes to retry on")`. -/
inductive ReqError where
  | remote (e : RemoteErr)
  | notInAllowList
  deriving DecidableEq

/-- A rejection of the wrapper promise: a persistent-store access error
(an opaque message), or one of the two `requestDoc` failures. -/
inductive GdwErr where
  | store (s : String)
  | remote (e : RemoteErr)
  | notInAllowList
  deriving DecidableEq

/-- `cacheTime` of the source: `{ locked?, time?, bypassLockedTime? }`. -/
structure CacheTime where
  locked : Option Bool
  time : Option TTL
  bypassLockedTime : Option Bool
  deriving DecidableEq

/-- `CacheOptions` of the source: `{ enabled?, cacheTime?, forceRefresh? }`. -/
structure CacheOptions where
  enabled : Option Bool
  cacheTime : Option CacheTime
  forceRefresh : Option Bool
  deriving DecidableEq

/-- `RetryOptions` of the source:
`{ enabled?, maxRetries?, retryDelay?, retryOnErrorCode? }`. -/
structure RetryOptions where
  enabled : Option Bool
  maxRetries : Option Nat
  retryDelay : Option Nat
  retryOnErrorCode : Option (List String)
  deriving DecidableEq

/-- `Options` of the source: `{ cacheOptions?, retryOptions? }`. -/
structure Options where
  cacheOptions : Option CacheOptions
  retryOptions : Option RetryOptions
  deriving DecidableEq

/-- A cache entry as stored by the source:
`{ doc, fetchedAt, persistentCacheTime? }`, where `doc` is the snapshot
payload (possibly `undefined` for a nonexistent document). -/
structure CacheEntry (D : Type) where
  doc : Option D
  fetchedAt : Int
  persistentCacheTime : Option TTL
  deriving DecidableEq

/-- The behaviour of the persistent key-value store for the one `get`,
`del` and `set` this call can issue.  `setResult` is the fate of the
un-awaited `set(...)` promise; the source attaches no handler to it. -/
structure StoreBehavior (D : Type) where
  getResult : Except String (Option (CacheEntry D))
  delResult : Except String Unit
  setResult : Except String Unit
  deriving DecidableEq

/-- The observable outcome of one `requestDoc` call: the settled value of
its promise, the number of `getDoc` invocations it made, and the total
milliseconds spent in `timeout(retryDelay)` waits. -/
@[ext]
structure ReqTrace (D : Type) where
  result : Except ReqError (Option D)
  attempts : Nat
  totalDelay : Nat
  deriving DecidableEq

/-- The observable outcome of one `getDocWrapper` call: the settled value
of the returned promise, whether `del(path, ...)` completed, and the
entry passed to `set(path, ...)` if `set` was invoked. -/
@[ext]
structure GdwOutcome (D : Type) where
  result : Except GdwErr (Option D)
  deleted : Bool
  written : Option (CacheEntry D)
  deriving DecidableEq

/-- The JS comparison `elapsed < t` where `t : number | undefined`:
`x < undefined` is `false`; `x < Infinity` is `true` for finite `x`. -/
def ltTTL (elapsed : Int) : Option TTL → Bool
  | none => false
  | some TTL.inf => true
  | some (TTL.fin t) => decide (elapsed < t)

/-- JS truthiness of a `number | undefined` cache-time value:
`undefined` and `0` are falsy; every other number (including
`Infinity`) is truthy. -/
def ttlTruthy : Option TTL → Bool
  | none => false
  | some TTL.inf => true
  | some (TTL.fin t) => decide (t ≠ 0)

/-- `retryOptions?.retryOnErrorCode?.includes(err?.code)`: membership of
an optional code in the allow-list (`includes(undefined)` is `false` on
a list of strings). -/
def codeMem (code : Option String) (codes : List String) : Bool :=
  match code with
  | none => false
  | some c => codes.contains c

/-- Whether a failing attempt is retried rather than aborted, for a given
allow-list configuration: with no list every error is retried; with a
list only errors whose code is a member. -/
def matchesAllow (allow : Option (List String)) (e : RemoteErr) : Bool :=
  match allow with
  | none => true
  | some codes => codeMem e.code codes

/-- `const maxRetries = retryOptions?.maxRetries || 3`: an absent or
falsy (`0`) value falls back to the default total budget of 3. -/
def resolveMaxRetries (ro : Option RetryOptions) : Nat :=
  match ro.bind RetryOptions.maxRetries with
  | none => 3
  | some 0 => 3
  | some (n + 1) => n + 1

/-- `const retryDelay = retryOptions?.retryDelay || 0`: an absent or
falsy (`0`) value falls back to 0. -/
def resolveRetryDelay (ro : Option RetryOptions) : Nat :=
  (ro.bind RetryOptions.retryDelay).getD 0

/-- Truthiness of `retryOptions?.enabled`. -/
def roEnabled (ro : Option RetryOptions) : Bool :=
  ((ro.bind RetryOptions.enabled)).getD false

/-- The inner `async function request()` of `requestDoc`.  `retries` is
the mutable counter of the source (the attempt index handed to the
remote collaborator); `fuel` bounds the recursion and is unreachable at
0 when started from `requestDoc` (the guard `retries < maxRetries - 1`
allows at most `maxRetries - 1` recursive calls). -/
def requestLoop {D : Type} (remote : Nat → Except RemoteErr (Option D))
    (enabled : Bool) (maxRetries retryDelay : Nat)
    (allow : Option (List String)) : Nat → Nat → ReqTrace D
  | 0, retries =>
    match remote retries with
    | Except.ok s => ⟨Except.ok s, 1, 0⟩
    | Except.error err => ⟨Except.error (ReqError.remote err), 1, 0⟩
  | fuel + 1, retries =>
    match remote retries with
    | Except.ok s => ⟨Except.ok s, 1, 0⟩
    | Except.error err =>
      if enabled then
        if retries < maxRetries - 1 then
          match allow with
          | none =>
            let t := requestLoop remote enabled maxRetries retryDelay none fuel (retries + 1)
            ⟨t.result, t.attempts + 1, t.totalDelay + retryDelay⟩
          | some codes =>
            if codeMem err.code codes then
              let t := requestLoop remote enabled maxRetries retryDelay (some codes) fuel (retries + 1)
              ⟨t.result, t.attempts + 1, t.totalDelay + retryDelay⟩
            else ⟨Except.error ReqError.notInAllowList, 1, 0⟩
        else ⟨Except.error (ReqError.remote err), 1, 0⟩
      else ⟨Except.error (ReqError.remote err), 1, 0⟩

/-- `requestDoc(db, path, retryOptions?)`: resolve the defaults and run
the request loop from a counter of 0. -/
def requestDoc {D : Type} (remote : Nat → Except RemoteErr (Option D))
    (ro : Option RetryOptions) : ReqTrace D :=
  requestLoop remote (roEnabled ro) (resolveMaxRetries ro) (resolveRetryDelay ro)
    (ro.bind RetryOptions.retryOnErrorCode) (resolveMaxRetries ro) 0

/-- Truthiness of `options?.cacheOptions?.enabled`. -/
def coEnabled (o : Option Options) : Bool :=
  ((o.bind Options.cacheOptions).bind CacheOptions.enabled).getD false

/-- Truthiness of `options?.cacheOptions?.forceRefresh`. -/
def coForceRefresh (o : Option Options) : Bool :=
  ((o.bind Options.cacheOptions).bind CacheOptions.forceRefresh).getD false

/-- `options?.cacheOptions?.cacheTime`. -/
def coCacheTime (o : Option Options) : Option CacheTime :=
  (o.bind Options.cacheOptions).bind CacheOptions.cacheTime

/-- Truthiness of `options?.cacheOptions?.cacheTime?.locked`. -/
def ctLocked (o : Option Options) : Bool :=
  ((coCacheTime o).bind CacheTime.locked).getD false

/-- Truthiness of `options?.cacheOptions?.cacheTime?.bypassLockedTime`. -/
def ctBypass (o : Option Options) : Bool :=
  ((coCacheTime o).bind CacheTime.bypassLockedTime).getD false

/-- `options?.cacheOptions?.cacheTime?.time`. -/
def ctTime (o : Option Options) : Option TTL :=
  (coCacheTime o).bind CacheTime.time

/-- `options?.retryOptions`. -/
def optRetry (o : Option Options) : Option RetryOptions :=
  o.bind Options.retryOptions

/-- Map a `requestDoc` failure into a wrapper-promise rejection. -/
def ofReqError : ReqError → GdwErr
  | ReqError.remote e => GdwErr.remote e
  | ReqError.notInAllowList => GdwErr.notInAllowList

/-- The `newDocEntry` object built on every successful fetch-and-store
path: `fetchedAt = Date.now()`, and `persistentCacheTime` is assigned
(to `cacheTime?.time`, itself possibly absent) only when
`cacheTime?.locked` is truthy. -/
def mkNewEntry {D : Type} (now : Int) (snap : Option D) (o : Option Options) :
    CacheEntry D :=
  ⟨snap, now, if ctLocked o then ctTime o else none⟩

/-- The freshness decision of the cache-enabled, entry-present,
no-`forceRefresh` region of the source (its three nested `if` chains):
`true` means the cached entry is served, `false` means fall through to
the delete-refetch-store fallback. -/
def freshDecision {D : Type} (now : Int) (e : CacheEntry D)
    (o : Option Options) : Bool :=
  if ttlTruthy e.persistentCacheTime && !ctBypass o then
    if ctLocked o then ltTTL (now - e.fetchedAt) (ctTime o)
    else ltTTL (now - e.fetchedAt) e.persistentCacheTime
  else ltTTL (now - e.fetchedAt) (ctTime o)

/-- A fetch that never touches the store: the cache-disabled refetch arm
(`requestDoc` then `resolve(doc.data())`, errors rejected). -/
def fetchNoStore {D : Type} (remote : Nat → Except RemoteErr (Option D))
    (o : Option Options) : GdwOutcome D :=
  match (requestDoc remote (optRetry o)).result with
  | Except.ok snap => ⟨Except.ok snap, false, none⟩
  | Except.error e => ⟨Except.error (ofReqError e), false, none⟩

/-- The cache-enabled empty-cache arm: fetch, `set` the new entry
(fire-and-forget), resolve with the fresh payload; fetch failures are
rejected by the attached `.catch`. -/
def fetchAndStore {D : Type} (now : Int)
    (remote : Nat → Except RemoteErr (Option D)) (o : Option Options) :
    GdwOutcome D :=
  match (requestDoc remote (optRetry o)).result with
  | Except.ok snap => ⟨Except.ok snap, false, some (mkNewEntry now snap o)⟩
  | Except.error e => ⟨Except.error (ofReqError e), false, none⟩

/-- The shared delete-refetch-store block (used verbatim by both the
`forceRefresh` arm and the stale fallback of the source): `del`, then
`requestDoc`, then fire-and-forget `set` and resolve; a `del` or fetch
failure is rejected by the attached `.catch`. -/
def refetchAndStore {D : Type} (now : Int)
    (remote : Nat → Except RemoteErr (Option D))
    (delResult : Except String Unit) (o : Option Options) : GdwOutcome D :=
  match delResult with
  | Except.error s => ⟨Except.error (GdwErr.store s), false, none⟩
  | Except.ok _ =>
    match (requestDoc remote (optRetry o)).result with
    | Except.ok snap => ⟨Except.ok snap, true, some (mkNewEntry now snap o)⟩
    | Except.error e => ⟨Except.error (ofReqError e), true, none⟩

/-- `getDocWrapper(db, path, options?)`: read the cache entry, then run
the decision engine of the source in its textual order — cache-disabled
branch first (serving a locked-fresh entry even with the cache
disabled), then empty-cache, then `forceRefresh`, then the freshness
chains, then the stale fallback.  A `get` failure is rejected by the
outermost `.catch`. -/
def getDocWrapper {D : Type} (now : Int)
    (remote : Nat → Except RemoteErr (Option D)) (store : StoreBehavior D)
    (o : Option Options) : GdwOutcome D :=
  match store.getResult with
  | Except.error s => ⟨Except.error (GdwErr.store s), false, none⟩
  | Except.ok cacheEntry =>
    if !coEnabled o then
      match cacheEntry with
      | some e =>
        if ltTTL (now - e.fetchedAt) e.persistentCacheTime then
          ⟨Except.ok e.doc, false, none⟩
        else fetchNoStore remote o
      | none => fetchNoStore remote o
    else
      match cacheEntry with
      | none => fetchAndStore now remote o
      | some e =>
        if coForceRefresh o then refetchAndStore now remote store.delResult o
        else if freshDecision now e o then ⟨Except.ok e.doc, false, none⟩
        else refetchAndStore now remote store.delResult o

/-- A successful attempt resolves at once, with one invocation and no
wait, whatever the remaining fuel. -/
theorem requestLoop_ok {D : Type} (remote : Nat → Except RemoteErr (Option D))
    (en : Bool) (M d : Nat) (allow : Option (List String)) (fuel r : Nat)
    (s : Option D) (h : remote r = Except.ok s) :
    requestLoop remote en M d allow fuel r = ⟨Except.ok s, 1, 0⟩ := by
  cases fuel <;> simp [requestLoop, h]

/-- A failing attempt at or beyond the budget boundary
(`retries ≥ maxRetries - 1`) rethrows the underlying error. -/
theorem requestLoop_exhaust {D : Type} (remote : Nat → Except RemoteErr (Option D))
    (en : Bool) (M d : Nat) (allow : Option (List String)) (fuel r : Nat)
    (e : RemoteErr) (h : remote r = Except.error e) (hr : M - 1 ≤ r) :
    requestLoop remote en M d allow fuel r = ⟨Except.error (ReqError.remote e), 1, 0⟩ := by
  cases fuel with
  | zero => simp [requestLoop, h]
  | succ fuel =>
    cases en with
    | false => simp [requestLoop, h]
    | true => simp [requestLoop, h, Nat.not_lt.mpr hr]

/-- A failing attempt below the budget boundary whose code is outside a
configured allow-list aborts at once with the wrapper error. -/
theorem requestLoop_notAllowed {D : Type} (remote : Nat → Except RemoteErr (Option D))
    (M d : Nat) (codes : List String) (fuel r : Nat)
    (e : RemoteErr) (h : remote r = Except.error e)
    (hr : r < M - 1) (hcode : codeMem e.code codes = false) (hf : 0 < fuel) :
    requestLoop remote true M d (some codes) fuel r =
      ⟨Except.error ReqError.notInAllowList, 1, 0⟩ := by
  cases fuel with
  | zero => omega
  | succ fuel => simp [requestLoop, h, hr, hcode]

/-- Unrolling a run of `j` failing-but-retried attempts starting at
counter `r`: the loop behaves as the loop restarted at counter `r + j`,
with `j` more remote invocations and `j` more waits. -/
theorem requestLoop_skip {D : Type} (remote : Nat → Except RemoteErr (Option D))
    (M d : Nat) (allow : Option (List String)) :
    ∀ (j fuel r : Nat), j ≤ fuel → r + j ≤ M - 1 →
    (∀ i, i < j → ∃ e, remote (r + i) = Except.error e ∧ matchesAllow allow e = true) →
    (requestLoop remote true M d allow fuel r).result
        = (requestLoop remote true M d allow (fuel - j) (r + j)).result
    ∧ (requestLoop remote true M d allow fuel r).attempts
        = (requestLoop remote true M d allow (fuel - j) (r + j)).attempts + j
    ∧ (requestLoop remote true M d allow fuel r).totalDelay
        = (requestLoop remote true M d allow (fuel - j) (r + j)).totalDelay + j * d := by
  intro j
  induction j with
  | zero => intro fuel r _ _ _; simp
  | succ j ih =>
    intro fuel r hj hM hfail
    cases fuel with
    | zero => omega
    | succ fuel =>
      obtain ⟨e, he, hmatch⟩ := hfail 0 (Nat.succ_pos j)
      rw [Nat.add_zero] at he
      have hr : r < M - 1 := by omega
      have hrecA : (requestLoop remote true M d allow (fuel + 1) r).result
          = (requestLoop remote true M d allow fuel (r + 1)).result := by
        cases allow with
        | none => simp [requestLoop, he, hr]
        | some codes =>
          simp only [matchesAllow] at hmatch
          simp [requestLoop, he, hr, hmatch]
      have hrecB : (requestLoop remote true M d allow (fuel + 1) r).attempts
          = (requestLoop remote true M d allow fuel (r + 1)).attempts + 1 := by
        cases allow with
        | none => simp [requestLoop, he, hr]
        | some codes =>
          simp only [matchesAllow] at hmatch
          simp [requestLoop, he, hr, hmatch]
      have hrecC : (requestLoop remote true M d allow (fuel + 1) r).totalDelay
          = (requestLoop remote true M d allow fuel (r + 1)).totalDelay + d := by
        cases allow with
        | none => simp [requestLoop, he, hr]
        | some codes =>
          simp only [matchesAllow] at hmatch
          simp [requestLoop, he, hr, hmatch]
      obtain ⟨ih1, ih2, ih3⟩ := ih fuel (r + 1) (by omega) (by omega)
        (fun i hi => by
          have h := hfail (i + 1) (by omega)
          rwa [show r + (i + 1) = r + 1 + i by omega] at h)
      have h1 : fuel + 1 - (j + 1) = fuel - j := by omega
      have h2 : r + (j + 1) = r + 1 + j := by omega
      refine ⟨?_, ?_, ?_⟩
      · rw [hrecA, ih1, h1, h2]
      · rw [hrecB, ih2, h1, h2]; omega
      · rw [hrecC, ih3, h1, h2]; ring

/-- The loop never makes more invocations than the remaining budget
allows: at counter `r` it makes at most `(maxRetries - 1 - r) + 1`. -/
theorem requestLoop_attempts_le {D : Type} (remote : Nat → Except RemoteErr (Option D))
    (en : Bool) (M d : Nat) (allow : Option (List String)) :
    ∀ (fuel r : Nat), (requestLoop remote en M d allow fuel r).attempts ≤ (M - 1 - r) + 1 := by
  intro fuel
  induction fuel with
  | zero =>
    intro r
    have h1 : (requestLoop remote en M d allow 0 r).attempts = 1 := by
      cases h : remote r <;> simp [requestLoop, h]
    omega
  | succ fuel ih =>
    intro r
    cases h : remote r with
    | ok s =>
      have h1 : (requestLoop remote en M d allow (fuel + 1) r).attempts = 1 := by
        simp [requestLoop, h]
      omega
    | error e =>
      cases en with
      | false =>
        have h1 : (requestLoop remote false M d allow (fuel + 1) r).attempts = 1 := by
          simp [requestLoop, h]
        omega
      | true =>
        by_cases hr : r < M - 1
        · cases allow with
          | none =>
            have h1 : (requestLoop remote true M d none (fuel + 1) r).attempts
                = (requestLoop remote true M d none fuel (r + 1)).attempts + 1 := by
              simp [requestLoop, h, hr]
            have h2 := ih (r + 1)
            omega
          | some codes =>
            by_cases hc : codeMem e.code codes
            · have h1 : (requestLoop remote true M d (some codes) (fuel + 1) r).attempts
                  = (requestLoop remote true M d (some codes) fuel (r + 1)).attempts + 1 := by
                simp [requestLoop, h, hr, hc]
              have h2 := ih (r + 1)
              omega
            · have h1 : (requestLoop remote true M d (some codes) (fuel + 1) r).attempts = 1 := by
                simp [requestLoop, h, hr, hc]
              omega
        · have h1 : (requestLoop remote true M d allow (fuel + 1) r).attempts = 1 := by
            simp [requestLoop, h, hr]
          omega

/-- A present positive `maxRetries` is used as given. -/
theorem resolveMaxRetries_pos (en : Option Bool) (M : Nat) (d : Option Nat)
    (a : Option (List String)) (hM : 1 ≤ M) :
    resolveMaxRetries (some ⟨en, some M, d, a⟩) = M := by
  cases M with
  | zero => omega
  | succ n => rfl

/-- The resolved attempt budget is always at least 1. -/
theorem resolveMaxRetries_ge_one (ro : Option RetryOptions) :
    1 ≤ resolveMaxRetries ro := by
  rcases h : ro.bind RetryOptions.maxRetries with _ | ⟨_ | k⟩ <;>
    simp only [resolveMaxRetries, h] <;> omega

/-- Resolving the retry configuration `{enabled: true, maxRetries: M ≥ 1,
retryDelay: d, retryOnErrorCode: a}` starts the loop with budget `M`. -/
theorem requestDoc_resolve {D : Type} (remote : Nat → Except RemoteErr (Option D))
    (M : Nat) (d : Nat) (a : Option (List String)) (hM : 1 ≤ M) :
    requestDoc remote (some ⟨some true, some M, some d, a⟩)
      = requestLoop remote true M d a M 0 := by
  unfold requestDoc
  rw [resolveMaxRetries_pos _ _ _ _ hM]
  rfl

/-- C3 (counterexample): with `maxRetries = N` at `N = 1`, the second
scenario of the claim sets `maxRetries = N - 1 = 0`; `0` is falsy, so the
source substitutes the default budget of 3, and the failure pattern
("fails on the first `N - 1 = 0` attempts, succeeds on the `N`-th")
makes the very first attempt succeed — the call resolves with the
snapshot after one attempt instead of rejecting with the underlying
remote error as the claim demands. -/
theorem retryBudget_counterexample :
    requestDoc (fun _ => (Except.ok (some 0) : Except RemoteErr (Option Nat)))
        (some ⟨some true, some 0, some 0, none⟩)
      = ⟨Except.ok (some 0), 1, 0⟩ := by
  decide

/-- C3 (amended): with retrying enabled, no allow-list and
`maxRetries = N ≥ 1`, the fetcher makes at most `N` attempts; if the
remote fetch fails on the first `N - 1` attempts and succeeds on the
`N`-th, the call succeeds with that snapshot after exactly `N` attempts;
and — for `N ≥ 2` — under the same failure pattern with
`maxRetries = N - 1` the call rejects with the original underlying
remote error of its last attempt (not a wrapper). -/
theorem retryBudget_amended {D : Type} (N : Nat)
    (remote : Nat → Except RemoteErr (Option D)) (errs : Nat → RemoteErr)
    (snap : Option D) (d : Nat) (hN : 1 ≤ N)
    (hfail : ∀ i, i < N - 1 → remote i = Except.error (errs i))
    (hsucc : remote (N - 1) = Except.ok snap) :
    ((requestDoc remote (some ⟨some true, some N, some d, none⟩)).result = Except.ok snap
      ∧ (requestDoc remote (some ⟨some true, some N, some d, none⟩)).attempts = N)
    ∧ (∀ remote2 : Nat → Except RemoteErr (Option D),
        (requestDoc remote2 (some ⟨some true, some N, some d, none⟩)).attempts ≤ N)
    ∧ (2 ≤ N →
        (requestDoc remote (some ⟨some true, some (N - 1), some d, none⟩)).result
          = Except.error (ReqError.remote (errs (N - 2)))) := by
  refine ⟨?_, ?_, ?_⟩
  · rw [requestDoc_resolve remote N d none hN]
    obtain ⟨s1, s2, s3⟩ := requestLoop_skip remote N d none (N - 1) N 0
      (by omega) (by omega)
      (fun i hi => ⟨errs i, by simpa using hfail i hi, rfl⟩)
    have hok := requestLoop_ok remote true N d none (N - (N - 1)) (0 + (N - 1)) snap
      (by rwa [Nat.zero_add])
    constructor
    · rw [s1, hok]
    · rw [s2, hok]
      show 1 + (N - 1) = N
      omega
  · intro remote2
    rw [requestDoc_resolve remote2 N d none hN]
    have h := requestLoop_attempts_le remote2 true N d none N 0
    omega
  · intro h2N
    rw [requestDoc_resolve remote (N - 1) d none (by omega)]
    obtain ⟨s1, s2, s3⟩ := requestLoop_skip remote (N - 1) d none (N - 2) (N - 1) 0
      (by omega) (by omega)
      (fun i hi => ⟨errs i, by simpa using hfail i (by omega), rfl⟩)
    have hexh := requestLoop_exhaust remote true (N - 1) d none
      ((N - 1) - (N - 2)) (0 + (N - 2)) (errs (N - 2))
      (by rw [Nat.zero_add]; exact hfail (N - 2) (by omega)) (by omega)
    rw [s1, hexh]

/-- C3 (witness): with `N = 3`, a remote that fails on attempts 0 and 1
and succeeds on attempt 2 makes the `maxRetries = 3` call succeed in
exactly 3 attempts, while the `maxRetries = 2` call rejects with the
attempt-1 error. -/
theorem retryBudget_amended_witness :
    ((requestDoc (fun i => if i < 2 then Except.error ⟨some "unavailable"⟩ else Except.ok (some 9))
        (some ⟨some true, some 3, some 0, none⟩)).result = (Except.ok (some 9) : Except ReqError (Option Nat))
      ∧ (requestDoc (fun i => if i < 2 then Except.error ⟨some "unavailable"⟩ else Except.ok ((some 9 : Option Nat)))
        (some ⟨some true, some 3, some 0, none⟩)).attempts = 3)
    ∧ (requestDoc (fun i => if i < 2 then Except.error ⟨some "unavailable"⟩ else Except.ok ((some 9 : Option Nat)))
        (some ⟨some true, some 2, some 0, none⟩)).result
      = Except.error (ReqError.remote ⟨some "unavailable"⟩) := by
  have h := retryBudget_amended 3
    (fun i => if i < 2 then Except.error ⟨some "unavailable"⟩ else Except.ok ((some 9 : Option Nat)))
    (fun _ => ⟨some "unavailable"⟩) (some 9) 0 (by omega)
    (fun i hi => by
      have hi2 : i < 2 := by omega
      simp [hi2])
    (by decide)
  exact ⟨h.1, h.2.2 (by omega)⟩

/-- C4: with retrying enabled, `maxRetries = M ≥ 1` and an allow-list
configured, after a run of `k` failing attempts whose codes are all in
the list: a failure at attempt `k` with a code outside the list while
budget remains (`k < M - 1`) rejects at once with the distinct
non-retryable wrapper error, consuming no further attempts; a failure at
attempt `k = M - 1` (budget exhausted) rejects with the original
underlying error, never the wrapper; and an in-list failure is retried —
a success at attempt `k ≤ M - 1` resolves with that snapshot. -/
theorem allowList_filter {D : Type} (M k : Nat)
    (remote : Nat → Except RemoteErr (Option D)) (errs : Nat → RemoteErr)
    (codes : List String) (d : Nat) (hM : 1 ≤ M)
    (hpre : ∀ i, i < k → remote i = Except.error (errs i)
      ∧ codeMem (errs i).code codes = true) :
    (∀ e, k < M - 1 → remote k = Except.error e → codeMem e.code codes = false →
      requestDoc remote (some ⟨some true, some M, some d, some codes⟩)
        = ⟨Except.error ReqError.notInAllowList, k + 1, k * d⟩)
    ∧ (∀ e, k = M - 1 → remote k = Except.error e →
      requestDoc remote (some ⟨some true, some M, some d, some codes⟩)
        = ⟨Except.error (ReqError.remote e), M, (M - 1) * d⟩)
    ∧ (∀ s, k ≤ M - 1 → remote k = Except.ok s →
      requestDoc remote (some ⟨some true, some M, some d, some codes⟩)
        = ⟨Except.ok s, k + 1, k * d⟩) := by
  refine ⟨?_, ?_, ?_⟩
  · intro e hk he hcode
    rw [requestDoc_resolve remote M d (some codes) hM]
    obtain ⟨s1, s2, s3⟩ := requestLoop_skip remote M d (some codes) k M 0
      (by omega) (by omega)
      (fun i hi => ⟨errs i, by simpa using (hpre i hi).1, by simp [matchesAllow, (hpre i hi).2]⟩)
    have hNA := requestLoop_notAllowed remote M d codes (M - k) (0 + k) e
      (by rwa [Nat.zero_add]) (by omega) hcode (by omega)
    refine ReqTrace.ext ?_ ?_ ?_
    · rw [s1, hNA]
    · rw [s2, hNA]
      show 1 + k = k + 1
      omega
    · rw [s3, hNA]
      show 0 + k * d = k * d
      exact Nat.zero_add _
  · intro e hk he
    rw [requestDoc_resolve remote M d (some codes) hM]
    obtain ⟨s1, s2, s3⟩ := requestLoop_skip remote M d (some codes) k M 0
      (by omega) (by omega)
      (fun i hi => ⟨errs i, by simpa using (hpre i hi).1, by simp [matchesAllow, (hpre i hi).2]⟩)
    have hexh := requestLoop_exhaust remote true M d (some codes) (M - k) (0 + k) e
      (by rwa [Nat.zero_add]) (by omega)
    refine ReqTrace.ext ?_ ?_ ?_
    · rw [s1, hexh]
    · rw [s2, hexh]
      show 1 + k = M
      omega
    · rw [s3, hexh]
      show 0 + k * d = (M - 1) * d
      rw [hk, Nat.zero_add]
  · intro s hk hs
    rw [requestDoc_resolve remote M d (some codes) hM]
    obtain ⟨s1, s2, s3⟩ := requestLoop_skip remote M d (some codes) k M 0
      (by omega) (by omega)
      (fun i hi => ⟨errs i, by simpa using (hpre i hi).1, by simp [matchesAllow, (hpre i hi).2]⟩)
    have hok := requestLoop_ok remote true M d (some codes) (M - k) (0 + k) s
      (by rwa [Nat.zero_add])
    refine ReqTrace.ext ?_ ?_ ?_
    · rw [s1, hok]
    · rw [s2, hok]
      show 1 + k = k + 1
      omega
    · rw [s3, hok]
      show 0 + k * d = k * d
      exact Nat.zero_add _

/-- C4 (witness): budget 3, allow-list `["a"]`; attempt 0 fails with
code `"a"` (retried, one 5 ms wait), attempt 1 fails with code `"b"` —
the call rejects at once with the non-retryable wrapper after exactly 2
attempts. -/
theorem allowList_filter_witness :
    requestDoc (fun i => if i = 0 then Except.error ⟨some "a"⟩
        else (Except.error ⟨some "b"⟩ : Except RemoteErr (Option Nat)))
      (some ⟨some true, some 3, some 5, some ["a"]⟩)
      = ⟨Except.error ReqError.notInAllowList, 2, 5⟩ := by
  have h := (allowList_filter 3 1
    (fun i => if i = 0 then Except.error ⟨some "a"⟩
      else (Except.error ⟨some "b"⟩ : Except RemoteErr (Option Nat)))
    (fun _ => ⟨some "a"⟩) ["a"] 5 (by omega)
    (fun i hi => by
      have hi0 : i = 0 := by omega
      subst hi0
      exact ⟨rfl, by decide⟩)).1
    ⟨some "b"⟩ (by omega) rfl (by decide)
  simpa using h

/-- C10: an explicit `maxRetries: 0` is falsy in JS, so `maxRetries || 3`
makes the call behave exactly (same settled value, same attempt count,
same waits) as a call with `maxRetries` unset, whose budget is the
default 3; likewise a falsy `retryDelay` (`0` or unset — the only falsy
values of the model) is treated as 0. -/
theorem falsyRetryDefaults {D : Type} (remote : Nat → Except RemoteErr (Option D))
    (d : Option Nat) (m : Option Nat) (a : Option (List String)) :
    requestDoc remote (some ⟨some true, some 0, d, a⟩)
        = requestDoc remote (some ⟨some true, none, d, a⟩)
    ∧ requestDoc remote (some ⟨some true, none, d, a⟩)
        = requestDoc remote (some ⟨some true, some 3, d, a⟩)
    ∧ requestDoc remote (some ⟨some true, m, none, a⟩)
        = requestDoc remote (some ⟨some true, m, some 0, a⟩) :=
  ⟨rfl, rfl, rfl⟩

/-- A fetch that bypasses the store neither deletes nor writes. -/
theorem fetchNoStore_frame {D : Type} (remote : Nat → Except RemoteErr (Option D))
    (o : Option Options) :
    (fetchNoStore remote o).deleted = false ∧ (fetchNoStore remote o).written = none := by
  unfold fetchNoStore
  cases (requestDoc remote (optRetry o)).result <;> simp

/-- C1 (counterexample): with `cacheOptions.enabled` false and
`forceRefresh` true on an entry with a fresh locked TTL, the source never
reaches its `forceRefresh` branch (that branch lives inside the
cache-enabled region): the cached payload `some 1` is served, nothing is
deleted, and the freshly fetchable payload `some 2` is not returned —
contradicting "regardless of the value of `cacheOptions.enabled`". -/
theorem forceRefresh_counterexample :
    getDocWrapper 100 (fun _ => Except.ok (some 2))
        ⟨Except.ok (some ⟨some 1, 100, some TTL.inf⟩), Except.ok (), Except.ok ()⟩
        (some ⟨some ⟨some false, none, some true⟩, none⟩)
      = ⟨Except.ok (some 1), false, none⟩
    ∧ (some 1 : Option Nat) ≠ some 2 := by
  decide

/-- C1 (amended): for every call with `cacheOptions.enabled` true and
`forceRefresh` true on a path with an existing entry, the entry is
deleted and a remote refetch performed, regardless of any lock or TTL
freshness (no freshness hypothesis appears); on success the returned
payload is the freshly fetched one and it is re-cached under the locking
rule. -/
theorem forceRefresh_refetches {D : Type} (now : Int)
    (remote : Nat → Except RemoteErr (Option D)) (store : StoreBehavior D)
    (o : Option Options) (e : CacheEntry D) (snap : Option D)
    (hGet : store.getResult = Except.ok (some e))
    (hEn : coEnabled o = true) (hFR : coForceRefresh o = true)
    (hDel : store.delResult = Except.ok ())
    (hFetch : (requestDoc remote (optRetry o)).result = Except.ok snap) :
    getDocWrapper now remote store o
      = ⟨Except.ok snap, true, some (mkNewEntry now snap o)⟩ := by
  simp [getDocWrapper, hGet, hEn, hFR, refetchAndStore, hDel, hFetch]

/-- C1 (witness): an entry with an infinite locked TTL is discarded and
refetched when the cache is enabled and `forceRefresh` is set. -/
theorem forceRefresh_refetches_witness :
    getDocWrapper 100 (fun _ => Except.ok (some 2))
        (⟨Except.ok (some ⟨some 1, 100, some TTL.inf⟩), Except.ok (), Except.ok ()⟩ :
          StoreBehavior Nat)
        (some ⟨some ⟨some true, none, some true⟩, none⟩)
      = ⟨Except.ok (some 2), true, some ⟨some 2, 100, none⟩⟩ :=
  forceRefresh_refetches 100 (fun _ => Except.ok (some 2))
    ⟨Except.ok (some ⟨some 1, 100, some TTL.inf⟩), Except.ok (), Except.ok ()⟩
    (some ⟨some ⟨some true, none, some true⟩, none⟩)
    ⟨some 1, 100, some TTL.inf⟩ (some 2) rfl rfl rfl rfl rfl

/-- C2 (counterexample): the source calls `set(path, newDocEntry, ...)`
without `await` and without `.catch`, so a failing `set` cannot reject
the returned promise: with an empty cache and a succeeding fetch but a
`set` that fails with "boom", the call still resolves with the fresh
payload instead of rejecting with the store error. -/
theorem setErrorSwallowed_counterexample :
    getDocWrapper 0 (fun _ => Except.ok (some 7))
        ⟨Except.ok none, Except.ok (), Except.error "boom"⟩
        (some ⟨some ⟨some true, none, none⟩, none⟩)
      = ⟨Except.ok (some 7), false, some ⟨some 7, 0, none⟩⟩
    ∧ (⟨Except.ok (some 7), false, some ⟨some 7, 0, none⟩⟩ : GdwOutcome Nat).result
        ≠ Except.error (GdwErr.store "boom") := by
  decide

/-- C2 (amended): every `get` error is propagated unmodified; every
`delete` error on a path that deletes (cache enabled, entry present,
`forceRefresh` or judged stale) is propagated unmodified; a fetch
failure on every fetch path — the enabled empty-cache path, the
cache-disabled paths (empty cache, or entry not locked-fresh), and the
delete-refetch paths — is propagated; but a `set` error is never
awaited and never rejects the call (see the counterexample). -/
theorem storeErrorPropagation {D : Type} (now : Int)
    (remote : Nat → Except RemoteErr (Option D)) (store : StoreBehavior D)
    (o : Option Options) :
    (∀ s, store.getResult = Except.error s →
      getDocWrapper now remote store o = ⟨Except.error (GdwErr.store s), false, none⟩)
    ∧ (∀ s e, store.getResult = Except.ok (some e) → coEnabled o = true →
        (coForceRefresh o = true ∨ freshDecision now e o = false) →
        store.delResult = Except.error s →
        getDocWrapper now remote store o = ⟨Except.error (GdwErr.store s), false, none⟩)
    ∧ (∀ err, store.getResult = Except.ok none → coEnabled o = true →
        (requestDoc remote (optRetry o)).result = Except.error err →
        getDocWrapper now remote store o = ⟨Except.error (ofReqError err), false, none⟩)
    ∧ (∀ err, store.getResult = Except.ok none → coEnabled o = false →
        (requestDoc remote (optRetry o)).result = Except.error err →
        getDocWrapper now remote store o = ⟨Except.error (ofReqError err), false, none⟩)
    ∧ (∀ err e, store.getResult = Except.ok (some e) → coEnabled o = false →
        ltTTL (now - e.fetchedAt) e.persistentCacheTime = false →
        (requestDoc remote (optRetry o)).result = Except.error err →
        getDocWrapper now remote store o = ⟨Except.error (ofReqError err), false, none⟩)
    ∧ (∀ err e, store.getResult = Except.ok (some e) → coEnabled o = true →
        (coForceRefresh o = true ∨ freshDecision now e o = false) →
        store.delResult = Except.ok () →
        (requestDoc remote (optRetry o)).result = Except.error err →
        getDocWrapper now remote store o = ⟨Except.error (ofReqError err), true, none⟩) := by
  refine ⟨?_, ?_, ?_, ?_, ?_, ?_⟩
  · intro s h
    simp [getDocWrapper, h]
  · intro s e hGet hEn hPath hDel
    cases hFR : coForceRefresh o with
    | true => simp [getDocWrapper, hGet, hEn, hFR, refetchAndStore, hDel]
    | false =>
      rcases hPath with hfr | hstale
      · rw [hfr] at hFR
        simp at hFR
      · simp [getDocWrapper, hGet, hEn, hFR, hstale, refetchAndStore, hDel]
  · intro err hGet hEn hFe
    simp [getDocWrapper, hGet, hEn, fetchAndStore, hFe]
  · intro err hGet hEn hFe
    simp [getDocWrapper, hGet, hEn, fetchNoStore, hFe]
  · intro err e hGet hEn hf hFe
    simp [getDocWrapper, hGet, hEn, hf, fetchNoStore, hFe]
  · intro err e hGet hEn hPath hDel hFe
    cases hFR : coForceRefresh o with
    | true => simp [getDocWrapper, hGet, hEn, hFR, refetchAndStore, hDel, hFe]
    | false =>
      rcases hPath with hfr | hstale
      · rw [hfr] at hFR
        simp at hFR
      · simp [getDocWrapper, hGet, hEn, hFR, hstale, refetchAndStore, hDel, hFe]

/-- C2 (witness): a failing `get` rejects the call with the same store
error. -/
theorem storeErrorPropagation_witness :
    getDocWrapper 0 (fun _ => Except.ok (some 1))
        (⟨Except.error "db failed", Except.ok (), Except.ok ()⟩ : StoreBehavior Nat) none
      = ⟨Except.error (GdwErr.store "db failed"), false, none⟩ :=
  (storeErrorPropagation 0 (fun _ => Except.ok (some 1))
    ⟨Except.error "db failed", Except.ok (), Except.ok ()⟩ none).1 "db failed" rfl

/-- C5: with `cacheOptions.enabled` falsy the call never deletes from or
writes to the persistent store; an existing entry whose locked TTL is
still fresh (`now - fetchedAt < persistentCacheTime`, `undefined`
comparing as not-less) is served; otherwise — stale lock, no lock, or no
entry — the document is fetched fresh without touching the store. -/
theorem cacheDisabled_behavior {D : Type} (now : Int)
    (remote : Nat → Except RemoteErr (Option D)) (store : StoreBehavior D)
    (o : Option Options) (hEn : coEnabled o = false) :
    ((getDocWrapper now remote store o).deleted = false
      ∧ (getDocWrapper now remote store o).written = none)
    ∧ (∀ e, store.getResult = Except.ok (some e) →
        ltTTL (now - e.fetchedAt) e.persistentCacheTime = true →
        (getDocWrapper now remote store o).result = Except.ok e.doc)
    ∧ (∀ e, store.getResult = Except.ok (some e) →
        ltTTL (now - e.fetchedAt) e.persistentCacheTime = false →
        getDocWrapper now remote store o = fetchNoStore remote o)
    ∧ (store.getResult = Except.ok none →
        getDocWrapper now remote store o = fetchNoStore remote o) := by
  refine ⟨?_, ?_, ?_, ?_⟩
  · cases hg : store.getResult with
    | error s => simp [getDocWrapper, hg]
    | ok ce =>
      cases ce with
      | none => simp [getDocWrapper, hg, hEn, fetchNoStore_frame]
      | some e =>
        cases hf : ltTTL (now - e.fetchedAt) e.persistentCacheTime with
        | true => simp [getDocWrapper, hg, hEn, hf]
        | false => simp [getDocWrapper, hg, hEn, hf, fetchNoStore_frame]
  · intro e hg hf
    simp [getDocWrapper, hg, hEn, hf]
  · intro e hg hf
    simp [getDocWrapper, hg, hEn, hf]
  · intro hg
    simp [getDocWrapper, hg, hEn]

/-- C5 (witness): with the cache option absent entirely, a locked-fresh
entry is served and the store is untouched. -/
theorem cacheDisabled_behavior_witness :
    coEnabled none = false
    ∧ (getDocWrapper 10 (fun _ => Except.ok (some 9))
        (⟨Except.ok (some ⟨some 5, 0, some (TTL.fin 100)⟩), Except.ok (), Except.ok ()⟩ :
          StoreBehavior Nat) none).result = Except.ok (some 5) :=
  ⟨rfl, (cacheDisabled_behavior 10 (fun _ => Except.ok (some 9))
    ⟨Except.ok (some ⟨some 5, 0, some (TTL.fin 100)⟩), Except.ok (), Except.ok ()⟩
    none rfl).2.1 ⟨some 5, 0, some (TTL.fin 100)⟩ rfl rfl⟩

/-- C6 (counterexample): an entry can carry a locked TTL of `0`
milliseconds (written by a call with `locked: true, time: 0`), and `0`
is falsy in JS, so the guard `if (persistentCacheTime && ...)` skips the
locked branch: at elapsed 5 ms the stored TTL of 0 says stale (second
conjunct), yet the call checks the one-time TTL of 1000 ms instead and
serves the cached `some 1` with no refetch — contradicting "freshness is
checked against the stored persistentCacheTime". -/
theorem lockPrecedence_counterexample :
    getDocWrapper 100 (fun _ => Except.ok (some 2))
        ⟨Except.ok (some ⟨some 1, 95, some (TTL.fin 0)⟩), Except.ok (), Except.ok ()⟩
        (some ⟨some ⟨some true, some ⟨none, some (TTL.fin 1000), none⟩, none⟩, none⟩)
      = ⟨Except.ok (some 1), false, none⟩
    ∧ ltTTL (100 - 95) (some (TTL.fin 0)) = false := by
  decide

/-- C6 (amended): cache enabled, entry present, no `forceRefresh`, no
`cacheTime.locked` on this call; when the entry carries a truthy locked
TTL (nonzero or infinite) and `bypassLockedTime` is not set, freshness
is checked against the stored `persistentCacheTime` (so a short one-time
`cacheTime.time` does not cause a refetch while the locked TTL is
fresh); when `bypassLockedTime` is true, freshness is instead checked
against this call's one-time `cacheTime.time`. -/
theorem lockPrecedence_amended {D : Type} (now : Int)
    (remote : Nat → Except RemoteErr (Option D)) (store : StoreBehavior D)
    (o : Option Options) (e : CacheEntry D)
    (hGet : store.getResult = Except.ok (some e))
    (hEn : coEnabled o = true) (hFR : coForceRefresh o = false)
    (hLock : ctLocked o = false) :
    (ttlTruthy e.persistentCacheTime = true → ctBypass o = false →
      getDocWrapper now remote store o =
        if ltTTL (now - e.fetchedAt) e.persistentCacheTime then
          ⟨Except.ok e.doc, false, none⟩
        else refetchAndStore now remote store.delResult o)
    ∧ (ctBypass o = true →
      getDocWrapper now remote store o =
        if ltTTL (now - e.fetchedAt) (ctTime o) then
          ⟨Except.ok e.doc, false, none⟩
        else refetchAndStore now remote store.delResult o) := by
  constructor
  · intro hT hB
    have hfd : freshDecision now e o = ltTTL (now - e.fetchedAt) e.persistentCacheTime := by
      simp [freshDecision, hT, hB, hLock]
    simp [getDocWrapper, hGet, hEn, hFR, hfd]
  · intro hB
    have hfd : freshDecision now e o = ltTTL (now - e.fetchedAt) (ctTime o) := by
      simp [freshDecision, hB]
    simp [getDocWrapper, hGet, hEn, hFR, hfd]

/-- C6 (witness): an infinite locked TTL with a one-time TTL of 0 and no
bypass still serves the cached payload. -/
theorem lockPrecedence_amended_witness :
    getDocWrapper 100 (fun _ => Except.ok (some 2))
        (⟨Except.ok (some ⟨some 1, 50, some TTL.inf⟩), Except.ok (), Except.ok ()⟩ :
          StoreBehavior Nat)
        (some ⟨some ⟨some true, some ⟨none, some (TTL.fin 0), none⟩, none⟩, none⟩)
      = ⟨Except.ok (some 1), false, none⟩ := by
  have h := (lockPrecedence_amended 100 (fun _ => Except.ok (some 2))
    ⟨Except.ok (some ⟨some 1, 50, some TTL.inf⟩), Except.ok (), Except.ok ()⟩
    (some ⟨some ⟨some true, some ⟨none, some (TTL.fin 0), none⟩, none⟩, none⟩)
    ⟨some 1, 50, some TTL.inf⟩ rfl rfl rfl rfl).1 rfl rfl
  rw [h]
  decide

/-- C7: cache enabled, no `forceRefresh`, entry with a locked TTL,
`bypassLockedTime` unset and `cacheTime.locked` true on this call:
freshness is compared against the new `cacheTime.time` (not the stored
`persistentCacheTime`), and when fresh the cached doc is served with the
store left completely unchanged (nothing deleted, nothing written — the
new locked TTL is not persisted until a later actual refetch). -/
theorem lockOverride {D : Type} (now : Int)
    (remote : Nat → Except RemoteErr (Option D)) (store : StoreBehavior D)
    (o : Option Options) (e : CacheEntry D)
    (hGet : store.getResult = Except.ok (some e))
    (hEn : coEnabled o = true) (hFR : coForceRefresh o = false)
    (hHasLock : e.persistentCacheTime ≠ none)
    (hByp : ctBypass o = false) (hLock : ctLocked o = true) :
    getDocWrapper now remote store o =
      if ltTTL (now - e.fetchedAt) (ctTime o) then ⟨Except.ok e.doc, false, none⟩
      else refetchAndStore now remote store.delResult o := by
  have hfd : freshDecision now e o = ltTTL (now - e.fetchedAt) (ctTime o) := by
    cases hT : ttlTruthy e.persistentCacheTime with
    | true => simp [freshDecision, hT, hByp, hLock]
    | false => simp [freshDecision, hT, hByp, hLock]
  simp [getDocWrapper, hGet, hEn, hFR, hfd]

/-- C7 (witness): stored locked TTL 10 ms is long expired (elapsed
50 ms), but the overriding call's `time: Infinity, locked: true` makes
the entry fresh: the cached payload is served and the store — including
the old 10 ms lock — is untouched. -/
theorem lockOverride_witness :
    getDocWrapper 100 (fun _ => Except.ok (some 2))
        (⟨Except.ok (some ⟨some 1, 50, some (TTL.fin 10)⟩), Except.ok (), Except.ok ()⟩ :
          StoreBehavior Nat)
        (some ⟨some ⟨some true, some ⟨some true, some TTL.inf, none⟩, none⟩, none⟩)
      = ⟨Except.ok (some 1), false, none⟩ := by
  have h := lockOverride 100 (fun _ => Except.ok (some 2))
    ⟨Except.ok (some ⟨some 1, 50, some (TTL.fin 10)⟩), Except.ok (), Except.ok ()⟩
    (some ⟨some ⟨some true, some ⟨some true, some TTL.inf, none⟩, none⟩, none⟩)
    ⟨some 1, 50, some (TTL.fin 10)⟩ rfl rfl rfl (by decide) rfl rfl
  rw [h]
  decide

/-- C8: whenever the stale-refetch fallback is reached (cache enabled,
entry present, no `forceRefresh`, entry judged stale by the decision
rules), the old entry is deleted and, on fetch success, a new entry is
written with `fetchedAt = now` and `persistentCacheTime` equal to this
call's `cacheTime.time` iff `cacheTime.locked` is true on this call —
a stale refresh without `locked` clears any previously locked TTL. -/
theorem staleRefetch_writes {D : Type} (now : Int)
    (remote : Nat → Except RemoteErr (Option D)) (store : StoreBehavior D)
    (o : Option Options) (e : CacheEntry D) (snap : Option D)
    (hGet : store.getResult = Except.ok (some e))
    (hEn : coEnabled o = true) (hFR : coForceRefresh o = false)
    (hStale : freshDecision now e o = false)
    (hDel : store.delResult = Except.ok ())
    (hFetch : (requestDoc remote (optRetry o)).result = Except.ok snap) :
    getDocWrapper now remote store o
      = ⟨Except.ok snap, true, some ⟨snap, now, if ctLocked o then ctTime o else none⟩⟩ := by
  simp [getDocWrapper, hGet, hEn, hFR, hStale, refetchAndStore, hDel, hFetch, mkNewEntry]

/-- C8 (witness): a stale entry carrying an old 10 ms lock, refreshed by
a call without `locked`, is replaced by an entry with `fetchedAt = now`
and no lock — the prior locked TTL is cleared. -/
theorem staleRefetch_writes_witness :
    getDocWrapper 100 (fun _ => Except.ok (some 2))
        (⟨Except.ok (some ⟨some 1, 50, some (TTL.fin 10)⟩), Except.ok (), Except.ok ()⟩ :
          StoreBehavior Nat)
        (some ⟨some ⟨some true, none, none⟩, none⟩)
      = ⟨Except.ok (some 2), true, some ⟨some 2, 100, none⟩⟩ := by
  have h := staleRefetch_writes 100 (fun _ => Except.ok (some 2))
    ⟨Except.ok (some ⟨some 1, 50, some (TTL.fin 10)⟩), Except.ok (), Except.ok ()⟩
    (some ⟨some ⟨some true, none, none⟩, none⟩)
    ⟨some 1, 50, some (TTL.fin 10)⟩ (some 2) rfl rfl rfl (by decide) rfl rfl
  rw [h]
  decide

/-- C9: on every refetch path that starts from an existing entry
(`forceRefresh`, or entry judged stale), the entry is deleted before the
fetch; if the (possibly retried) fetch ultimately fails, the call
rejects with that failure and the store no longer holds the previous
entry — nothing is written back. -/
theorem refetchFailure {D : Type} (now : Int)
    (remote : Nat → Except RemoteErr (Option D)) (store : StoreBehavior D)
    (o : Option Options) (e : CacheEntry D) (err : ReqError)
    (hGet : store.getResult = Except.ok (some e))
    (hEn : coEnabled o = true)
    (hPath : coForceRefresh o = true ∨ freshDecision now e o = false)
    (hDel : store.delResult = Except.ok ())
    (hFetch : (requestDoc remote (optRetry o)).result = Except.error err) :
    getDocWrapper now remote store o = ⟨Except.error (ofReqError err), true, none⟩ := by
  cases hFR : coForceRefresh o with
  | true => simp [getDocWrapper, hGet, hEn, hFR, refetchAndStore, hDel, hFetch]
  | false =>
    rcases hPath with hfr | hstale
    · rw [hfr] at hFR
      simp at hFR
    · simp [getDocWrapper, hGet, hEn, hFR, hstale, refetchAndStore, hDel, hFetch]

/-- C9 (witness): a `forceRefresh` whose remote fetch fails (retrying
disabled) rejects with the remote error after the entry was already
deleted, and nothing is written back. -/
theorem refetchFailure_witness :
    getDocWrapper 0 (fun _ => Except.error ⟨some "unavailable"⟩)
        (⟨Except.ok (some ⟨(some 1 : Option Nat), 0, some TTL.inf⟩), Except.ok (), Except.ok ()⟩ :
          StoreBehavior Nat)
        (some ⟨some ⟨some true, none, some true⟩, none⟩)
      = ⟨Except.error (GdwErr.remote ⟨some "unavailable"⟩), true, none⟩ := by
  have h := refetchFailure 0 (fun _ => Except.error ⟨some "unavailable"⟩)
    ⟨Except.ok (some ⟨(some 1 : Option Nat), 0, some TTL.inf⟩), Except.ok (), Except.ok ()⟩
    (some ⟨some ⟨some true, none, some true⟩, none⟩)
    ⟨some 1, 0, some TTL.inf⟩ (ReqError.remote ⟨some "unavailable"⟩)
    rfl rfl (Or.inl rfl) rfl rfl
  rw [h]
  decide
